import Mathlib

/-!
Shallow embedding of the Hacker News analytical platform's core pipeline:
story tracking (`src/ingestion/story_tracker.py`), processing
(`src/processing/hn_processor.py`), structural quality checks and runner
(`src/quality/checks.py`, `src/quality/runner.py`) and temporal/sentiment
enrichment (`src/transformation/hn_transformer.py`), together with theorems
settling the specification's testable claims.

Modelling conventions:
- Calendar dates (`"YYYY-MM-DD"` strings) are modelled as integer day
  ordinals; lexicographic order on such date strings agrees with the integer
  order, and `datetime.strptime` subtraction measured in days is integer
  subtraction.
- Creation timestamps (`time`, Unix epoch seconds) are integers; the day
  ordinal `d` corresponds to epoch second `d * 86400` (midnight UTC), which
  is what `pd.to_datetime` yields for a plain date string.
- Pandas DataFrames are lists of typed rows; nullable columns are `Option`.
- Python dicts are insertion-ordered association lists with unique keys.
- Python floats are modelled as rationals.
-/

namespace HN

/-! ### Story tracker (`src/ingestion/story_tracker.py`) -/

/-- One tracking entry, keyed by story id in the tracking mapping
(`first_seen`, `last_updated`, `last_score`, `last_descendants`).
Dates are day ordinals. -/
structure TrackingEntry where
  first_seen : Int
  last_updated : Int
  last_score : Int
  last_descendants : Int
deriving DecidableEq

/-- Current metrics of a story, the values of the `story_metrics` dict.
The fields are optional because the code reads them with
`metrics.get("score", 0)` / `metrics.get("descendants", 0)`. -/
structure StoryMetrics where
  score : Option Int
  descendants : Option Int
deriving DecidableEq

/-- Association-list lookup, the model of Python `dict[key]` /
`key in dict`. -/
def lookupA {β : Type} : List (Nat × β) → Nat → Option β
  | [], _ => none
  | p :: t, i => if p.1 = i then some p.2 else lookupA t i

/-- `StoryTracker._has_significant_changes`: score changed, or descendants
increased by at least 5, versus the stored metrics. -/
def has_significant_changes (old_metadata : TrackingEntry)
    (current_metrics : StoryMetrics) : Bool :=
  let old_score := old_metadata.last_score
  let new_score := current_metrics.score.getD 0
  let old_descendants := old_metadata.last_descendants
  let new_descendants := current_metrics.descendants.getD 0
  (new_score != old_score) || decide (new_descendants - old_descendants ≥ 5)

/-- `StoryTracker._should_keep_tracking`: keep while strictly fewer than
`tracking_days` days passed since `last_updated`.  (The code's
`if not last_updated: return True` branch is unreachable in this model:
every persisted entry carries a date.) -/
def should_keep_tracking (tracking_days : Int) (metadata : TrackingEntry)
    (today : Int) : Bool :=
  let days_without_changes := today - metadata.last_updated
  decide (days_without_changes < tracking_days)

/-- The refreshed entry written by `update_tracking` on a significant
change: `first_seen` kept, `last_updated` set to today, metrics replaced. -/
def refreshedEntry (metadata : TrackingEntry) (current_metrics : StoryMetrics)
    (today : Int) : TrackingEntry :=
  { first_seen := metadata.first_seen
    last_updated := today
    last_score := current_metrics.score.getD 0
    last_descendants := current_metrics.descendants.getD 0 }

/-- The fresh entry inserted for a newly seen story id
(`story_metrics.get(story_id, {})` with `.get(..., 0)` defaults). -/
def freshEntry (metrics : Option StoryMetrics) (today : Int) : TrackingEntry :=
  { first_seen := today
    last_updated := today
    last_score := (match metrics with | some m => m.score.getD 0 | none => 0)
    last_descendants :=
      (match metrics with | some m => m.descendants.getD 0 | none => 0) }

/-- Body of phase 1 of `StoryTracker.update_tracking` for one already
tracked `(story_id, metadata)` pair: `none` means the pair contributes
nothing to the new mapping this cycle. -/
def trackExistingStep (tracking_days : Int)
    (story_metrics : List (Nat × StoryMetrics)) (today : Int)
    (p : Nat × TrackingEntry) : Option (Nat × TrackingEntry) :=
  match lookupA story_metrics p.1 with
  | some current_metrics =>
    if has_significant_changes p.2 current_metrics then
      some (p.1, refreshedEntry p.2 current_metrics today)
    else if should_keep_tracking tracking_days p.2 today then
      some (p.1, p.2)
    else
      none
  | none => none

/-- Body of phase 2 of `StoryTracker.update_tracking` for one newly seen
story id: insert a fresh entry unless the id is already present. -/
def addNewStep (story_metrics : List (Nat × StoryMetrics)) (today : Int)
    (acc : List (Nat × TrackingEntry)) (story_id : Nat) :
    List (Nat × TrackingEntry) :=
  if (lookupA acc story_id).isSome then acc
  else acc ++ [(story_id, freshEntry (lookupA story_metrics story_id) today)]

/-- `StoryTracker.update_tracking`: phase 1 walks the existing entries in
order (refresh / keep / drop), phase 2 appends fresh entries for newly seen
ids not already present. -/
def update_tracking (tracking_days : Int)
    (existing_tracked : List (Nat × TrackingEntry))
    (new_story_ids : List Nat) (story_metrics : List (Nat × StoryMetrics))
    (today : Int) : List (Nat × TrackingEntry) :=
  let updated :=
    existing_tracked.filterMap (trackExistingStep tracking_days story_metrics today)
  new_story_ids.foldl (addNewStep story_metrics today) updated

/-! Association-list lemmas used to settle the tracker claims. -/

theorem trackExistingStep_of_metrics_none {tracking_days today : Int}
    {story_metrics : List (Nat × StoryMetrics)} {p : Nat × TrackingEntry}
    (hm : lookupA story_metrics p.1 = none) :
    trackExistingStep tracking_days story_metrics today p = none := by
  simp [trackExistingStep, hm]

theorem trackExistingStep_of_metrics_some {tracking_days today : Int}
    {story_metrics : List (Nat × StoryMetrics)} {p : Nat × TrackingEntry}
    {cm : StoryMetrics} (hm : lookupA story_metrics p.1 = some cm) :
    trackExistingStep tracking_days story_metrics today p =
      (if has_significant_changes p.2 cm then
        some (p.1, refreshedEntry p.2 cm today)
      else if should_keep_tracking tracking_days p.2 today then
        some (p.1, p.2)
      else none) := by
  simp [trackExistingStep, hm]

theorem trackExistingStep_key {tracking_days : Int}
    {story_metrics : List (Nat × StoryMetrics)} {today : Int}
    {p q : Nat × TrackingEntry}
    (h : trackExistingStep tracking_days story_metrics today p = some q) :
    q.1 = p.1 := by
  rcases hm : lookupA story_metrics p.1 with _ | cm
  · rw [trackExistingStep_of_metrics_none hm] at h
    cases h
  · rw [trackExistingStep_of_metrics_some hm] at h
    split_ifs at h
    · cases h; rfl
    · cases h; rfl

theorem lookupA_append_single {β : Type} (l : List (Nat × β)) (j i : Nat)
    (x : β) (h : j ≠ i) : lookupA (l ++ [(j, x)]) i = lookupA l i := by
  induction l with
  | nil => simp [lookupA, h]
  | cons p t ih => by_cases hp : p.1 = i <;> simp [lookupA, hp, ih]

theorem lookupA_filterMap_of_metrics_none {tracking_days today : Int}
    {story_metrics : List (Nat × StoryMetrics)}
    (l : List (Nat × TrackingEntry)) (i : Nat)
    (hm : lookupA story_metrics i = none) :
    lookupA (l.filterMap (trackExistingStep tracking_days story_metrics today)) i
      = none := by
  induction l with
  | nil => simp [lookupA]
  | cons p t ih =>
    rcases hs : trackExistingStep tracking_days story_metrics today p with _ | q
    · rw [List.filterMap_cons_none hs]
      exact ih
    · have hq : q.1 = p.1 := trackExistingStep_key hs
      by_cases hpi : p.1 = i
      · subst hpi
        rw [trackExistingStep_of_metrics_none hm] at hs
        cases hs
      · rw [List.filterMap_cons_some hs]
        simp only [lookupA, hq, hpi, if_false]
        exact ih

theorem lookupA_foldl_addNew_not_mem
    (story_metrics : List (Nat × StoryMetrics)) (today : Int)
    (new_story_ids : List Nat) (acc : List (Nat × TrackingEntry)) (i : Nat)
    (h : i ∉ new_story_ids) :
    lookupA (new_story_ids.foldl (addNewStep story_metrics today) acc) i
      = lookupA acc i := by
  induction new_story_ids generalizing acc with
  | nil => rfl
  | cons j t ih =>
    have hji : j ≠ i := fun hji => h (hji ▸ List.mem_cons_self j t)
    have ht : i ∉ t := fun hit => h (List.mem_cons_of_mem j hit)
    rw [List.foldl_cons, ih _ ht]
    unfold addNewStep
    split
    · rfl
    · exact lookupA_append_single acc j i _ hji

theorem lookupA_eq_none_of_not_mem_keys {β : Type} (l : List (Nat × β))
    (i : Nat) (h : i ∉ l.map Prod.fst) : lookupA l i = none := by
  induction l with
  | nil => rfl
  | cons p t ih =>
    have hp : p.1 ≠ i := fun hpi => h (by simp [hpi])
    have ht : i ∉ t.map Prod.fst := fun hit => h (by simp; right; simpa using hit)
    simp [lookupA, hp, ih ht]

theorem lookupA_filterMap_not_mem_keys {tracking_days today : Int}
    {story_metrics : List (Nat × StoryMetrics)}
    (t : List (Nat × TrackingEntry)) (i : Nat)
    (h : i ∉ t.map Prod.fst) :
    lookupA (t.filterMap (trackExistingStep tracking_days story_metrics today)) i
      = none := by
  induction t with
  | nil => rfl
  | cons r s ihs =>
    have hr : r.1 ≠ i := fun hri => h (by simp [hri])
    have hs' : i ∉ s.map Prod.fst := fun hm => h (List.mem_cons_of_mem _ hm)
    rcases hrs : trackExistingStep tracking_days story_metrics today r with _ | w
    · rw [List.filterMap_cons_none hrs]
      exact ihs hs'
    · rw [List.filterMap_cons_some hrs]
      have hw : w.1 = r.1 := trackExistingStep_key hrs
      simp only [lookupA, hw, hr, if_false]
      exact ihs hs'

theorem lookupA_filterMap_step {tracking_days today : Int}
    {story_metrics : List (Nat × StoryMetrics)}
    (l : List (Nat × TrackingEntry)) (i : Nat) (e : TrackingEntry)
    (hnd : (l.map Prod.fst).Nodup) (hmem : (i, e) ∈ l) :
    lookupA (l.filterMap (trackExistingStep tracking_days story_metrics today)) i
      = (trackExistingStep tracking_days story_metrics today (i, e)).map Prod.snd := by
  induction l with
  | nil => cases hmem
  | cons p t ih =>
    have hnd' : (t.map Prod.fst).Nodup := (List.nodup_cons.mp (by simpa using hnd)).2
    have hheadkey : p.1 ∉ t.map Prod.fst := (List.nodup_cons.mp (by simpa using hnd)).1
    rcases List.mem_cons.mp hmem with hpe | hmt
    · subst hpe
      rcases hs : trackExistingStep tracking_days story_metrics today (i, e) with _ | q
      · rw [List.filterMap_cons_none hs]
        rw [lookupA_filterMap_not_mem_keys t i hheadkey]
        rfl
      · rw [List.filterMap_cons_some hs]
        have hq : q.1 = i := trackExistingStep_key hs
        simp [lookupA, hq]
    · have hpi : p.1 ≠ i := by
        intro hpi
        exact hheadkey (hpi ▸ (by simpa using ⟨e, hmt⟩ : i ∈ t.map Prod.fst))
      rcases hs : trackExistingStep tracking_days story_metrics today p with _ | q
      · rw [List.filterMap_cons_none hs]; exact ih hnd' hmt
      · rw [List.filterMap_cons_some hs]
        have hq : q.1 = p.1 := trackExistingStep_key hs
        simp only [lookupA, hq, hpi, if_false]
        exact ih hnd' hmt

theorem has_significant_changes_eq_true_iff (e : TrackingEntry)
    (m : StoryMetrics) :
    has_significant_changes e m = true ↔
      (m.score.getD 0 ≠ e.last_score ∨
        m.descendants.getD 0 - e.last_descendants ≥ 5) := by
  simp [has_significant_changes]

theorem should_keep_tracking_eq_true_iff (tracking_days : Int)
    (e : TrackingEntry) (today : Int) :
    should_keep_tracking tracking_days e today = true ↔
      today - e.last_updated < tracking_days := by
  simp [should_keep_tracking]

/-- **C5.** For a tracked id whose current metrics are present (and which is
not also newly seen), `update_tracking` refreshes the entry (`last_updated`
set to today, metrics replaced, `first_seen` kept) iff the score changed or
descendants grew by at least 5; an unchanged entry is kept verbatim iff
strictly fewer than `tracking_days` days passed since `last_updated`, and
dropped otherwise. -/
theorem update_tracking_refresh_or_age_out
    (tracking_days today : Int) (existing_tracked : List (Nat × TrackingEntry))
    (new_story_ids : List Nat) (story_metrics : List (Nat × StoryMetrics))
    (i : Nat) (e : TrackingEntry) (m : StoryMetrics)
    (hnd : (existing_tracked.map Prod.fst).Nodup)
    (hmem : (i, e) ∈ existing_tracked)
    (hm : lookupA story_metrics i = some m)
    (hnew : i ∉ new_story_ids) :
    lookupA (update_tracking tracking_days existing_tracked new_story_ids
        story_metrics today) i =
      if m.score.getD 0 ≠ e.last_score ∨
          m.descendants.getD 0 - e.last_descendants ≥ 5 then
        some { first_seen := e.first_seen, last_updated := today,
               last_score := m.score.getD 0,
               last_descendants := m.descendants.getD 0 }
      else if today - e.last_updated < tracking_days then some e
      else none := by
  unfold update_tracking
  rw [lookupA_foldl_addNew_not_mem _ _ _ _ _ hnew,
    lookupA_filterMap_step existing_tracked i e hnd hmem,
    trackExistingStep_of_metrics_some (p := (i, e)) hm]
  simp only [has_significant_changes_eq_true_iff,
    should_keep_tracking_eq_true_iff]
  split_ifs <;> rfl

/-- Witness for C5, the spec's own scenario: id 100, stored score 50 /
descendants 10, `last_updated` yesterday (day 9, today day 10).  New metrics
(50, 13) leave the entry untouched; new metrics (50, 15) refresh it. -/
theorem update_tracking_refresh_or_age_out_witness :
    lookupA (update_tracking 7 [(100, ⟨9, 9, 50, 10⟩)] []
        [(100, ⟨some 50, some 13⟩)] 10) 100 = some ⟨9, 9, 50, 10⟩ ∧
    lookupA (update_tracking 7 [(100, ⟨9, 9, 50, 10⟩)] []
        [(100, ⟨some 50, some 15⟩)] 10) 100 = some ⟨9, 10, 50, 15⟩ := by
  constructor
  · rw [update_tracking_refresh_or_age_out 7 10 [(100, ⟨9, 9, 50, 10⟩)] []
      [(100, ⟨some 50, some 13⟩)] 100 ⟨9, 9, 50, 10⟩ ⟨some 50, some 13⟩
      (by decide) (by decide) (by decide) (by decide)]
    decide
  · rw [update_tracking_refresh_or_age_out 7 10 [(100, ⟨9, 9, 50, 10⟩)] []
      [(100, ⟨some 50, some 15⟩)] 100 ⟨9, 9, 50, 10⟩ ⟨some 50, some 15⟩
      (by decide) (by decide) (by decide) (by decide)]
    decide

/-- **C2 counterexample.** A tracked id (here id 1) with no entry in the
metrics mapping and not newly seen is *absent* from the mapping returned by
`update_tracking`, contradicting the claim that its entry is present and
unchanged that cycle. -/
theorem update_tracking_missing_metrics_counterexample :
    update_tracking 7 [(1, ⟨0, 0, 50, 10⟩)] [] [] 10 = [] ∧
    lookupA (update_tracking 7 [(1, ⟨0, 0, 50, 10⟩)] [] [] 10) 1 ≠
      some ⟨0, 0, 50, 10⟩ := by
  decide

/-- **C2 amended.** For every tracked id in the existing mapping with no
entry in the supplied metrics mapping (and not also newly seen),
`update_tracking` drops the id: it is absent from the returned mapping that
cycle. -/
theorem update_tracking_missing_metrics_drops
    (tracking_days today : Int) (existing_tracked : List (Nat × TrackingEntry))
    (new_story_ids : List Nat) (story_metrics : List (Nat × StoryMetrics))
    (i : Nat) (e : TrackingEntry)
    (hmem : (i, e) ∈ existing_tracked)
    (hm : lookupA story_metrics i = none)
    (hnew : i ∉ new_story_ids) :
    lookupA (update_tracking tracking_days existing_tracked new_story_ids
        story_metrics today) i = none := by
  unfold update_tracking
  rw [lookupA_foldl_addNew_not_mem _ _ _ _ _ hnew]
  exact lookupA_filterMap_of_metrics_none existing_tracked i hm

/-- Witness for the amended C2 at a concrete input. -/
theorem update_tracking_missing_metrics_drops_witness :
    lookupA (update_tracking 7 [(1, ⟨0, 0, 50, 10⟩)] [] [] 10) 1 = none :=
  update_tracking_missing_metrics_drops 7 10 [(1, ⟨0, 0, 50, 10⟩)] [] [] 1
    ⟨0, 0, 50, 10⟩ (by decide) (by decide) (by decide)

/-! ### Tracking persistence (`save_tracking` / `load_active_stories`) -/

/-- Persisted form of the tracking store (the single JSON object at
`metadata/story_tracking.json`): an ISO timestamp, a story count, and the
`stories` object whose keys are the ids serialized as strings
(`{str(k): v for k, v in tracking_data.items()}`). -/
structure TrackingFile where
  last_updated_iso : String
  total_stories : Nat
  stories : List (String × TrackingEntry)

/-- `StoryTracker.save_tracking`: serialize the in-memory mapping, turning
each integer key into its decimal string. -/
def save_tracking (now_iso : String)
    (tracking_data : List (Nat × TrackingEntry)) : TrackingFile :=
  { last_updated_iso := now_iso
    total_stories := tracking_data.length
    stories := tracking_data.map (fun p => (Nat.repr p.1, p.2)) }

/-- `StoryTracker.load_active_stories`: read the persisted object and turn
the string keys back into integers (`{int(k): v ...}`).  `none` models the
missing-object (`NoSuchKey`) case; a key on which `int()` would raise makes
the whole read fail, which the `except Exception` branch turns into the
empty mapping. -/
def load_active_stories : Option TrackingFile → List (Nat × TrackingEntry)
  | none => []
  | some f =>
    if f.stories.all (fun p => p.1.toNat?.isSome) then
      f.stories.filterMap (fun p => p.1.toNat?.map (fun k => (k, p.2)))
    else []

/-! Decimal-representation lemmas: `String.toNat?` is a left inverse of
`Nat.repr`, which is what makes the int → str → int key coercion of the
persisted tracking store lossless. -/

theorem toDigitsCore_append (fuel n : Nat) (ds : List Char) :
    Nat.toDigitsCore 10 fuel n ds = Nat.toDigitsCore 10 fuel n [] ++ ds := by
  induction fuel generalizing n ds with
  | zero => rfl
  | succ f ih =>
    simp only [Nat.toDigitsCore]
    by_cases h : n / 10 = 0
    · simp [h]
    · simp only [h, if_false]
      rw [ih (n / 10) (Nat.digitChar (n % 10) :: ds),
        ih (n / 10) [Nat.digitChar (n % 10)], List.append_assoc]
      rfl

theorem toDigitsCore_fuel (n : Nat) : ∀ f1 f2 : Nat, n < f1 → n < f2 →
    Nat.toDigitsCore 10 f1 n [] = Nat.toDigitsCore 10 f2 n [] := by
  induction n using Nat.strong_induction_on with
  | _ n ih =>
    intro f1 f2 h1 h2
    obtain ⟨a, rfl⟩ : ∃ a, f1 = a + 1 := ⟨f1 - 1, by omega⟩
    obtain ⟨b, rfl⟩ : ∃ b, f2 = b + 1 := ⟨f2 - 1, by omega⟩
    simp only [Nat.toDigitsCore]
    by_cases h : n / 10 = 0
    · simp [h]
    · simp only [h, if_false]
      rw [toDigitsCore_append a, toDigitsCore_append b,
        ih (n / 10) (by omega) a b (by omega) (by omega)]

theorem toDigits_of_div_eq_zero (n : Nat) (h : n / 10 = 0) :
    Nat.toDigits 10 n = [Nat.digitChar (n % 10)] := by
  unfold Nat.toDigits
  simp only [Nat.toDigitsCore]
  simp [h]

theorem toDigits_of_div_ne_zero (n : Nat) (h : n / 10 ≠ 0) :
    Nat.toDigits 10 n
      = Nat.toDigits 10 (n / 10) ++ [Nat.digitChar (n % 10)] := by
  conv_lhs => unfold Nat.toDigits
  simp only [Nat.toDigitsCore, h, if_false]
  rw [toDigitsCore_append n (n / 10) [Nat.digitChar (n % 10)]]
  unfold Nat.toDigits
  rw [toDigitsCore_fuel (n / 10) n (n / 10 + 1) (by omega) (by omega)]

theorem decode_digitChar (d : Nat) (h : d < 10) :
    (Nat.digitChar d).toNat - '0'.toNat = d := by
  interval_cases d <;> rfl

theorem digitChar_isDigit (d : Nat) (h : d < 10) :
    (Nat.digitChar d).isDigit = true := by
  interval_cases d <;> rfl

theorem toDigits_all_isDigit (n : Nat) :
    ∀ c ∈ Nat.toDigits 10 n, c.isDigit = true := by
  induction n using Nat.strong_induction_on with
  | _ n ih =>
    by_cases h : n / 10 = 0
    · rw [toDigits_of_div_eq_zero n h]
      intro c hc
      rw [List.mem_singleton.mp hc]
      exact digitChar_isDigit _ (Nat.mod_lt _ (by omega))
    · rw [toDigits_of_div_ne_zero n h]
      intro c hc
      rcases List.mem_append.mp hc with h1 | h2
      · exact ih (n / 10) (by omega) c h1
      · rw [List.mem_singleton.mp h2]
        exact digitChar_isDigit _ (Nat.mod_lt _ (by omega))

theorem toDigits_ne_nil (n : Nat) : Nat.toDigits 10 n ≠ [] := by
  by_cases h : n / 10 = 0
  · rw [toDigits_of_div_eq_zero n h]
    simp
  · rw [toDigits_of_div_ne_zero n h]
    simp

/-- The accumulator step of `String.toNat?`. -/
def decodeStep (n : Nat) (c : Char) : Nat := n * 10 + (c.toNat - '0'.toNat)

theorem foldl_decode_toDigits (n : Nat) :
    (Nat.toDigits 10 n).foldl decodeStep 0 = n := by
  induction n using Nat.strong_induction_on with
  | _ n ih =>
    by_cases h : n / 10 = 0
    · rw [toDigits_of_div_eq_zero n h]
      have hn : n % 10 = n := by omega
      simp only [List.foldl_cons, List.foldl_nil, decodeStep]
      rw [decode_digitChar _ (Nat.mod_lt _ (by omega)), hn]
      omega
    · rw [toDigits_of_div_ne_zero n h, List.foldl_append,
        ih (n / 10) (by omega)]
      simp only [List.foldl_cons, List.foldl_nil, decodeStep]
      rw [decode_digitChar _ (Nat.mod_lt _ (by omega))]
      omega

/-- `int(str(n)) == n`: parsing back the decimal representation of a
natural number succeeds and returns the same number. -/
theorem toNat?_repr (n : Nat) : (Nat.repr n).toNat? = some n := by
  have hne : Nat.toDigits 10 n ≠ [] := toDigits_ne_nil n
  have hdig : ∀ c ∈ Nat.toDigits 10 n, c.isDigit = true := toDigits_all_isDigit n
  rw [Nat.repr, String.toNat?, if_pos]
  · congr 1
    rw [String.foldl_eq]
    exact foldl_decode_toDigits n
  · rw [String.isNat, Bool.and_eq_true]
    constructor
    · rw [Bool.not_eq_true', ← Bool.not_eq_true]
      intro hemp
      rw [String.isEmpty_iff, ← String.asString_nil, List.asString_inj] at hemp
      exact hne hemp
    · rw [String.all_eq]
      exact List.all_eq_true.mpr hdig

/-- **C9.** `save_tracking` followed by `load_active_stories` recovers the
in-memory mapping exactly: the only transformation applied is the
int → string → int key coercion, which is lossless. -/
theorem load_active_stories_save_tracking (now_iso : String)
    (tracking_data : List (Nat × TrackingEntry)) :
    load_active_stories (some (save_tracking now_iso tracking_data))
      = tracking_data := by
  have hall : (tracking_data.map (fun p => (Nat.repr p.1, p.2))).all
      (fun p => p.1.toNat?.isSome) = true := by
    rw [List.all_eq_true]
    intro p hp
    rcases List.mem_map.mp hp with ⟨q, _, rfl⟩
    rw [toNat?_repr]
    rfl
  simp only [load_active_stories, save_tracking, hall, if_true]
  induction tracking_data with
  | nil => rfl
  | cons p t ih =>
    simp only [List.map_cons, List.filterMap_cons, toNat?_repr, Option.map_some']
    simp only [List.map_cons, List.all_cons, Bool.and_eq_true] at hall
    rw [ih hall.2]

/-! ### Processor (`src/processing/hn_processor.py`)

Raw rows carry the values of the schema columns after the
`pd.to_numeric(..., errors="coerce")` view: an unparseable or missing value
is `none`.  The pass-through columns `by`, `url`, `kids`, `dead`, `deleted`
are omitted: they are copied verbatim and no claim mentions them. -/

structure RawStory where
  id : Option Int
  type : Option String
  time : Option Int
  title : Option String
  score : Option Int
  descendants : Option Int
deriving DecidableEq

structure RawComment where
  id : Option Int
  type : Option String
  time : Option Int
  text : Option (List Char)
  parent : Option Int
deriving DecidableEq

/-- A processed story row.  `id` and `ingestion_date` are non-nullable by
construction: `_normalize_stories` drops rows with unparseable `id` and
`_add_ingestion_date` stamps the constant partition date. -/
structure PStory where
  id : Int
  type : Option String
  time : Option Int
  title : Option String
  score : Int
  descendants : Int
  ingestion_date : Int
deriving DecidableEq

/-- A processed comment row.  `id`, `parent` and `ingestion_date` are
non-nullable by construction (`_normalize_comments` drops rows with
unparseable `id` or `parent`). -/
structure PComment where
  id : Int
  type : Option String
  time : Option Int
  text : Option (List Char)
  parent : Int
  ingestion_date : Int
deriving DecidableEq

/-- `HNProcessor._normalize_stories` followed by `_add_ingestion_date`:
schema projection, `score`/`descendants` nulls filled with 0, rows with
invalid `id` dropped, partition date stamped. -/
def normalizeStories (raw : List RawStory) (ingestion_date : Int) :
    List PStory :=
  raw.filterMap (fun r => r.id.map (fun i =>
    { id := i, type := r.type, time := r.time, title := r.title,
      score := r.score.getD 0, descendants := r.descendants.getD 0,
      ingestion_date := ingestion_date }))

/-- `HNProcessor._normalize_comments` followed by `_add_ingestion_date`:
rows with invalid `id` or `parent` dropped, partition date stamped. -/
def normalizeComments (raw : List RawComment) (ingestion_date : Int) :
    List PComment :=
  raw.filterMap (fun r =>
    match r.id, r.parent with
    | some i, some p =>
      some { id := i, type := r.type, time := r.time, text := r.text,
             parent := p, ingestion_date := ingestion_date }
    | _, _ => none)

/-- `drop_duplicates(subset=key, keep="last")` (used by
`HNProcessor._dedup` and by the transformer's window dedup): a row survives
iff no later row carries the same key; survivor order is input order. -/
def dedupKeepLast {α κ : Type} [DecidableEq κ] (key : α → κ) :
    List α → List α
  | [] => []
  | a :: as =>
    if as.any (fun b => decide (key b = key a)) then dedupKeepLast key as
    else a :: dedupKeepLast key as

/-- The dedup key `(id, ingestion_date)` for stories. -/
def storyKey (r : PStory) : Int × Int := (r.id, r.ingestion_date)

/-- The dedup key `(id, ingestion_date)` for comments. -/
def commentKey (r : PComment) : Int × Int := (r.id, r.ingestion_date)

/-- `HNProcessor._validate_referential_integrity`: a comment is valid iff
its `parent` occurs among the ids of the (deduplicated) stories or among
the ids of the (deduplicated) input comments; returns the surviving
comments and the orphan count `(~is_valid).sum()`. -/
def validate_referential_integrity (stories_df : List PStory)
    (comments_df : List PComment) : List PComment × Nat :=
  let valid_story_ids := stories_df.map (fun r => r.id)
  let valid_comment_ids := comments_df.map (fun r => r.id)
  let is_valid := fun c : PComment =>
    decide (c.parent ∈ valid_story_ids) || decide (c.parent ∈ valid_comment_ids)
  (comments_df.filter is_valid,
    (comments_df.filter (fun c => !is_valid c)).length)

/-- One write of `HNProcessor._save_processed` to the processed layer. -/
inductive ProcWrite
  | stories (rows : List PStory)
  | comments (rows : List PComment)
deriving DecidableEq

/-- The statistics dict returned by `HNProcessor.process`. -/
structure ProcessStats where
  stories_raw : Nat
  stories_processed : Nat
  stories_duplicates_removed : Nat
  comments_raw : Nat
  comments_processed : Nat
  comments_duplicates_removed : Nat
  comments_orphaned : Nat
deriving DecidableEq

/-- Observable outcome of one `process` run: returned stats plus the rows
persisted to the processed layer.  `HNProcessor.process` is total — it has
no failure path and consults no quality runner. -/
structure ProcessRun where
  stats : ProcessStats
  writes : List ProcWrite
deriving DecidableEq

/-- The deduplicated story batch of a run (empty when no raw stories were
loaded, mirroring the `raw_stories.empty` guard). -/
def storiesDeduped (raw_stories : List RawStory) (ingestion_date : Int) :
    List PStory :=
  if raw_stories.isEmpty then []
  else dedupKeepLast storyKey (normalizeStories raw_stories ingestion_date)

/-- The deduplicated comment batch of a run. -/
def commentsDeduped (raw_comments : List RawComment) (ingestion_date : Int) :
    List PComment :=
  if raw_comments.isEmpty then []
  else dedupKeepLast commentKey (normalizeComments raw_comments ingestion_date)

/-- `HNProcessor.process`: load raw batches, normalize, stamp the date,
deduplicate, validate comment referential integrity (only when both
deduplicated batches are non-empty), persist non-empty results. -/
def process (raw_stories : List RawStory) (raw_comments : List RawComment)
    (ingestion_date : Int) : ProcessRun :=
  let stories_deduped := storiesDeduped raw_stories ingestion_date
  let comments_deduped := commentsDeduped raw_comments ingestion_date
  let sdf_len := (normalizeStories raw_stories ingestion_date).length
  let cdf_len := (normalizeComments raw_comments ingestion_date).length
  let validated :=
    if raw_comments.isEmpty then (([] : List PComment), 0)
    else if stories_deduped.isEmpty then (comments_deduped, 0)
    else validate_referential_integrity stories_deduped comments_deduped
  let comments_valid := validated.1
  { stats :=
      { stories_raw := raw_stories.length
        stories_processed :=
          if raw_stories.isEmpty then 0 else stories_deduped.length
        stories_duplicates_removed :=
          if raw_stories.isEmpty then 0 else sdf_len - stories_deduped.length
        comments_raw := raw_comments.length
        comments_processed :=
          if raw_comments.isEmpty then 0 else comments_valid.length
        comments_duplicates_removed :=
          if raw_comments.isEmpty then 0 else cdf_len - comments_deduped.length
        comments_orphaned := validated.2 }
    writes :=
      (if stories_deduped.isEmpty then []
       else [ProcWrite.stories stories_deduped])
        ++ (if comments_valid.isEmpty then []
            else [ProcWrite.comments comments_valid]) }

/-! ### Quality check library and runner (`src/quality/checks.py`,
`src/quality/runner.py`) -/

/-- A `CheckResult`.  The diagnostic fields `description`, `details` and
`sample_ids` are omitted: no claim depends on them. -/
structure CheckResult where
  name : String
  passed : Bool
  severity : String
  affected_records : Nat
deriving DecidableEq

/-- `check_not_null` over a typed row schema: `nullMask r = true` iff one of
the checked columns is null in row `r`.  The missing-column branch of the
Python function cannot arise for a fixed schema. -/
def check_not_null {α : Type} (nullMask : α → Bool) (severity : String)
    (df : List α) : CheckResult :=
  let affected := (df.filter nullMask).length
  { name := "check_not_null", passed := affected == 0, severity := severity,
    affected_records := affected }

/-- `check_unique`: `duplicated(subset=key, keep=False)` marks every row
whose key occurs at least twice. -/
def check_unique {α κ : Type} [DecidableEq κ] (key : α → κ)
    (severity : String) (df : List α) : CheckResult :=
  let affected :=
    (df.filter (fun r => decide ((df.countP fun s => decide (key s = key r)) ≥ 2))).length
  { name := "check_unique", passed := affected == 0, severity := severity,
    affected_records := affected }

/-- `check_range`: a row fails when its numeric value falls below
`min_value` or above `max_value`; a null (NaN) value is excluded from the
failing mask. -/
def check_range {α : Type} (value : α → Option ℚ)
    (min_value max_value : Option ℚ) (severity : String) (df : List α) :
    CheckResult :=
  let invalid := fun r =>
    match value r with
    | none => false
    | some v =>
      (match min_value with | some m => decide (v < m) | none => false)
        || (match max_value with | some m => decide (m < v) | none => false)
  let affected := (df.filter invalid).length
  { name := "check_range", passed := affected == 0, severity := severity,
    affected_records := affected }

/-- `check_referential_integrity`: a child row fails when its key does not
occur among the parent-side key values. -/
def check_referential_integrity {α : Type} (df_child : List α)
    (parent_vals : List Int) (child_key : α → Int) (severity : String) :
    CheckResult :=
  let invalid := fun c => !(decide (child_key c ∈ parent_vals))
  let affected := (df_child.filter invalid).length
  { name := "check_referential_integrity", passed := affected == 0,
    severity := severity, affected_records := affected }

/-- `check_volume`: fails when the row count is below the minimum. -/
def check_volume {α : Type} (df : List α) (entity : String)
    (min_expected : Nat) (severity : String) : CheckResult :=
  let actual := df.length
  let passed := decide (actual ≥ min_expected)
  { name := "check_volume", passed := passed, severity := severity,
    affected_records := if passed then 0 else min_expected - actual }

/-- `QualityReport` totals.  The `generated_at` timestamp and the
`entities` breakdown are omitted: no claim depends on them. -/
structure QualityReport where
  total_checks : Nat
  passed_checks : Nat
  failed_checks : Nat
  has_critical_failures : Bool
deriving DecidableEq

/-- `QualityRunner._build_report`: `has_critical_failures` is the OR over
failed critical-severity checks. -/
def build_report (results : List CheckResult) : QualityReport :=
  let total := results.length
  let passed := results.countP (fun r => r.passed)
  { total_checks := total
    passed_checks := passed
    failed_checks := total - passed
    has_critical_failures :=
      results.any (fun r => !r.passed && r.severity == "critical") }

/-- Null mask of `check_not_null(stories, ["id", "type", "time",
"ingestion_date"])`: `id` and `ingestion_date` are non-nullable in the
processed schema, so only `type` and `time` can contribute. -/
def storyNullMask (r : PStory) : Bool := r.type.isNone || r.time.isNone

/-- Null mask of `check_not_null(comments, ["id", "type", "time", "parent",
"ingestion_date"])`; `id`, `parent`, `ingestion_date` are non-nullable. -/
def commentNullMask (r : PComment) : Bool := r.type.isNone || r.time.isNone

/-- `QualityRunner.run_story_checks`: the post-processing battery for
stories with its hardcoded severities. -/
def run_story_checks (stories_df : List PStory) : QualityReport :=
  build_report
    [ check_not_null storyNullMask "critical" stories_df,
      check_unique storyKey "critical" stories_df,
      check_range (fun r => some (r.score : ℚ)) (some 0) none "warning"
        stories_df,
      check_range (fun r => some (r.descendants : ℚ)) (some 0) none "warning"
        stories_df,
      check_volume stories_df "stories" 1 "warning" ]

/-- `QualityRunner.run_comment_checks`: the post-processing battery for
comments (`valid_parent_ids` are the id values of the valid-parent frame
passed by the caller). -/
def run_comment_checks (comments_df : List PComment)
    (valid_parent_ids : List Int) : QualityReport :=
  build_report
    [ check_not_null commentNullMask "critical" comments_df,
      check_unique commentKey "critical" comments_df,
      check_referential_integrity comments_df valid_parent_ids
        (fun c => c.parent) "critical",
      check_volume comments_df "comments" 1 "warning" ]

/-! Claim theorems about the processor. -/

/-- Concrete raw batch for C1: a single story whose `type` is null, which
fails the critical `check_not_null` of the story battery. -/
def c1RawStory : RawStory :=
  { id := some 100, type := none, time := some 1706745600,
    title := some "Test", score := some 1, descendants := some 0 }

/-- **C1 (code bug).** On a raw story batch whose processed form fails a
critical check of the post-processing battery `run_story_checks` (null
`type`), `HNProcessor.process` still persists the batch to the processed
layer and completes normally: `process` is a total function with no
blocking-error path and it never consults the quality runner (its own
caller `processing/main.py` and its unit tests construct
`HNProcessor(loader, writer, quality_runner=...)` and import
`QualityCheckError` from `processing.hn_processor`, neither of which
`hn_processor.py` provides). -/
theorem process_persists_despite_critical_failure :
    (run_story_checks (storiesDeduped [c1RawStory] 0)).has_critical_failures
        = true ∧
    (process [c1RawStory] [] 0).writes
        = [ProcWrite.stories (storiesDeduped [c1RawStory] 0)] := by
  decide

theorem length_filter_not_add {α : Type} (p : α → Bool) (l : List α) :
    (l.filter p).length + (l.filter (fun a => !p a)).length = l.length := by
  induction l with
  | nil => rfl
  | cons a t ih => by_cases h : p a <;> simp [List.filter_cons, h] <;> omega

theorem length_filter_not {α : Type} (p : α → Bool) (l : List α) :
    (l.filter (fun a => !p a)).length = l.length - (l.filter p).length := by
  have h := length_filter_not_add p l
  omega

/-- Concrete inputs for C3: story 100; comment 201 is an orphan
(parent 999), comment 301 replies to 201. -/
def c3Story : PStory :=
  { id := 100, type := some "story", time := some 1706745600, title := none,
    score := 50, descendants := 0, ingestion_date := 0 }

def c3CommentOrphan : PComment :=
  { id := 201, type := some "comment", time := some 1706749200,
    text := none, parent := 999, ingestion_date := 0 }

def c3CommentChild : PComment :=
  { id := 301, type := some "comment", time := some 1706756400,
    text := none, parent := 201, ingestion_date := 0 }

/-- **C3 counterexample.** Comment 301 survives validation because its
parent 201 is an *input* comment id, yet 201 itself is dropped as an
orphan: the surviving row's `parent` is in neither the surviving story ids
nor the surviving comment ids, refuting the claim's "surviving union". -/
theorem validate_referential_integrity_counterexample :
    (validate_referential_integrity [c3Story]
        [c3CommentOrphan, c3CommentChild]).1 = [c3CommentChild] ∧
    ¬ (c3CommentChild.parent ∈ ([c3Story].map (fun r => r.id)) ∨
        c3CommentChild.parent ∈
          ((validate_referential_integrity [c3Story]
              [c3CommentOrphan, c3CommentChild]).1.map (fun r => r.id))) := by
  decide

/-- **C3 amended.** After `_validate_referential_integrity`, every
surviving comment's `parent` is in the union of the story ids and the
*input* (deduplicated, pre-validation) comment ids — not the surviving
comment ids — and the orphaned count equals input count minus surviving
count. -/
theorem validate_referential_integrity_spec (stories_df : List PStory)
    (comments_df : List PComment) :
    (∀ c ∈ (validate_referential_integrity stories_df comments_df).1,
        c.parent ∈ stories_df.map (fun r => r.id) ∨
          c.parent ∈ comments_df.map (fun r => r.id)) ∧
    (validate_referential_integrity stories_df comments_df).2
      = comments_df.length
        - (validate_referential_integrity stories_df comments_df).1.length := by
  simp only [validate_referential_integrity]
  constructor
  · intro c hc
    have hp := List.of_mem_filter hc
    simpa using hp
  · exact length_filter_not _ comments_df

/-- Witness for the amended C3 at the concrete C3 inputs. -/
theorem validate_referential_integrity_spec_witness :
    c3CommentChild.parent ∈ ([c3Story].map (fun r => r.id)) ∨
      c3CommentChild.parent ∈
        ([c3CommentOrphan, c3CommentChild].map (fun r => r.id)) :=
  (validate_referential_integrity_spec [c3Story]
      [c3CommentOrphan, c3CommentChild]).1 c3CommentChild (by decide)

theorem getLast?_cons_of_ne_nil {α : Type} (a : α) {l : List α}
    (h : l ≠ []) : (a :: l).getLast? = l.getLast? := by
  cases l with
  | nil => exact absurd rfl h
  | cons b t => rfl

/-- The surviving rows of `dedupKeepLast` carrying a given key are exactly
the last input occurrence of that key (empty if the key never occurs). -/
theorem dedup_filter_key {α κ : Type} [DecidableEq κ] (key : α → κ)
    (l : List α) (k : κ) :
    (dedupKeepLast key l).filter (fun a => decide (key a = k))
      = ((l.filter (fun a => decide (key a = k))).getLast?).toList := by
  induction l with
  | nil => rfl
  | cons a t ih =>
    by_cases hdup : t.any (fun b => decide (key b = key a)) = true
    · rw [show dedupKeepLast key (a :: t) = dedupKeepLast key t from by
        simp [dedupKeepLast, hdup]]
      rw [ih]
      by_cases hk : key a = k
      · have hft : t.filter (fun b => decide (key b = k)) ≠ [] := by
          rcases List.any_eq_true.mp hdup with ⟨b, hb, hkey⟩
          rw [decide_eq_true_iff] at hkey
          refine List.ne_nil_of_mem (List.mem_filter.mpr ⟨hb, ?_⟩)
          rw [decide_eq_true_iff, hkey, hk]
        rw [List.filter_cons_of_pos (by simp [hk]),
          getLast?_cons_of_ne_nil a hft]
      · rw [List.filter_cons_of_neg (by simp [hk])]
    · rw [show dedupKeepLast key (a :: t) = a :: dedupKeepLast key t from by
        simp [dedupKeepLast, hdup]]
      by_cases hk : key a = k
      · have hft : t.filter (fun b => decide (key b = k)) = [] := by
          rw [List.filter_eq_nil_iff]
          intro b hb
          rw [decide_eq_true_iff]
          intro hbk
          exact hdup (List.any_eq_true.mpr
            ⟨b, hb, by rw [decide_eq_true_iff, hbk, hk]⟩)
        rw [List.filter_cons_of_pos (by simp [hk]),
          List.filter_cons_of_pos (by simp [hk]), ih, hft]
        rfl
      · rw [List.filter_cons_of_neg (by simp [hk]),
          List.filter_cons_of_neg (by simp [hk]), ih]

/-- **C6.** For every (id, ingestion_date) key present in a batch, exactly
one row survives `_dedup`, namely the last occurrence of that key in
file-arrival order (stories and comments both deduplicate through
`dedupKeepLast` with their `(id, ingestion_date)` keys). -/
theorem dedup_exactly_last {α κ : Type} [DecidableEq κ] (key : α → κ)
    (l : List α) (k : κ)
    (h : l.filter (fun a => decide (key a = k)) ≠ []) :
    (dedupKeepLast key l).filter (fun a => decide (key a = k))
      = [(l.filter (fun a => decide (key a = k))).getLast h] := by
  rw [dedup_filter_key key l k, List.getLast?_eq_getLast _ h]
  rfl

/-- Concrete duplicate story rows for the C6 witness: same
`(id, ingestion_date)`, different scores; the later row wins. -/
def c6StoryA : PStory :=
  { id := 100, type := some "story", time := some 1706745600, title := none,
    score := 50, descendants := 0, ingestion_date := 0 }

def c6StoryB : PStory :=
  { id := 100, type := some "story", time := some 1706745600, title := none,
    score := 75, descendants := 3, ingestion_date := 0 }

/-- Witness for C6: of two story rows sharing key (100, 0) the
deduplication keeps exactly the last one. -/
theorem dedup_exactly_last_witness :
    (dedupKeepLast storyKey [c6StoryA, c6StoryB]).filter
        (fun r => decide (storyKey r = (100, 0))) = [c6StoryB] := by
  rw [dedup_exactly_last storyKey [c6StoryA, c6StoryB] (100, 0) (by decide)]
  rfl

/-- **C10.** In a run whose deduplicated story batch is empty but whose
deduplicated comment batch is non-empty, referential-integrity validation
is skipped: every deduplicated comment is kept and persisted to the
processed layer (orphans included) and the returned orphan count is 0. -/
theorem process_no_stories_skips_integrity
    (raw_stories : List RawStory) (raw_comments : List RawComment)
    (ingestion_date : Int)
    (hs : storiesDeduped raw_stories ingestion_date = [])
    (hc : commentsDeduped raw_comments ingestion_date ≠ []) :
    (process raw_stories raw_comments ingestion_date).stats.comments_orphaned
        = 0 ∧
    (process raw_stories raw_comments ingestion_date).stats.comments_processed
        = (commentsDeduped raw_comments ingestion_date).length ∧
    ProcWrite.comments (commentsDeduped raw_comments ingestion_date)
      ∈ (process raw_stories raw_comments ingestion_date).writes := by
  have hre : raw_comments.isEmpty = false := by
    by_contra hx
    rw [Bool.not_eq_false] at hx
    exact hc (by simp [commentsDeduped, hx])
  have hse : (storiesDeduped raw_stories ingestion_date).isEmpty = true := by
    rw [hs]
    rfl
  have hce : (commentsDeduped raw_comments ingestion_date).isEmpty = false := by
    rcases hl : commentsDeduped raw_comments ingestion_date with _ | ⟨x, xs⟩
    · exact absurd hl hc
    · rfl
  simp only [process, hre, hse, hce, Bool.false_eq_true, if_false, if_true]
  refine ⟨trivial, trivial, ?_⟩
  simp

/-- Concrete input for the C10 witness: no stories, one comment whose
parent 999 matches nothing. -/
def c10RawComment : RawComment :=
  { id := some 201, type := some "comment", time := some 1706749200,
    text := none, parent := some 999 }

/-- Witness for C10 at a concrete input. -/
theorem process_no_stories_skips_integrity_witness :
    (process [] [c10RawComment] 0).stats.comments_orphaned = 0 ∧
    (process [] [c10RawComment] 0).stats.comments_processed
      = (commentsDeduped [c10RawComment] 0).length ∧
    ProcWrite.comments (commentsDeduped [c10RawComment] 0)
      ∈ (process [] [c10RawComment] 0).writes :=
  process_no_stories_skips_integrity [] [c10RawComment] 0 (by decide)
    (by decide)

/-! ### Transformer text cleaning (`HNTransformer._clean_html`) -/

/-- ASCII whitespace matched by the `\s` of the cleaning regexes. -/
def isSpaceChar (c : Char) : Bool :=
  c = ' ' || c = '\t' || c = '\n' || c = '\r' || c = '\x0b' || c = '\x0c'

/-- Structural worker for `stripTags`: the fuel argument only bounds the
recursion depth (one unit per character consumed), so `fuel = l.length`
always suffices and the `0` equation is unreachable from `stripTags`. -/
def stripTagsF : Nat → List Char → List Char
  | 0, l => l
  | _, [] => []
  | fuel + 1, c :: rest =>
    if c = '<' then
      match rest.dropWhile (fun d => !(d = '>')) with
      | '>' :: tail =>
        if rest.takeWhile (fun d => !(d = '>')) = [] then
          '<' :: stripTagsF fuel rest
        else ' ' :: stripTagsF fuel tail
      | _ => '<' :: stripTagsF fuel rest
    else c :: stripTagsF fuel rest

/-- `re.sub(r"<[^>]+>", " ", text)`: scanning left to right, a `<` followed
by at least one non-`>` character and then a `>` is replaced (with
everything in between) by one space; a `<` with no such closing `>` is kept
and scanning resumes at the next character. -/
def stripTags (l : List Char) : List Char := stripTagsF l.length l

/-- Structural worker for `collapseWs` (same fuel convention). -/
def collapseWsF : Nat → List Char → List Char
  | 0, l => l
  | _, [] => []
  | fuel + 1, c :: rest =>
    if isSpaceChar c then ' ' :: collapseWsF fuel (rest.dropWhile isSpaceChar)
    else c :: collapseWsF fuel rest

/-- `re.sub(r"\s+", " ", s)`: every maximal whitespace run becomes one
space. -/
def collapseWs (l : List Char) : List Char := collapseWsF l.length l

/-- Python `str.strip()`: drop leading and trailing whitespace. -/
def stripEnds (l : List Char) : List Char :=
  ((l.dropWhile isSpaceChar).reverse.dropWhile isSpaceChar).reverse

/-- `HNTransformer._clean_html`, parameterized by the entity decoder
`html.unescape`, an external stdlib collaborator. -/
def cleanHtml (unescape : List Char → List Char) (text : List Char) :
    List Char :=
  if text = [] then []
  else stripEnds (collapseWs (unescape (stripTags text)))

/-! ### Sentiment enrichment (`HNTransformer._enrich_comments_sentiment`) -/

/-- An enriched comment row: the processed row plus the two sentiment
columns. -/
structure SComment extends PComment where
  sentiment_score : ℚ
  sentiment_label : String
deriving DecidableEq

/-- Python `round(x, 4)` on the model's rationals (tie-breaking at exact
half-ties differs from float banker's rounding; no claim depends on it). -/
def round4 (x : ℚ) : ℚ := ((round (x * 10000) : ℤ) : ℚ) / 10000

def SENTIMENT_POSITIVE_THRESHOLD : ℚ := 5 / 100

def SENTIMENT_NEGATIVE_THRESHOLD : ℚ := -(5 / 100)

/-- `_enrich_comments_sentiment`, parameterized by the external VADER
analyzer (`polarity_scores(...)["compound"]`) and `html.unescape`: null
text is read as `""`; empty cleaned text yields score 0.0 and label
`neutral`; otherwise the compound score is rounded to 4 decimals and the
label comes from the ±0.05 thresholds on the unrounded compound. -/
def enrich_comments_sentiment (analyzer : List Char → ℚ)
    (unescape : List Char → List Char) (comments_df : List PComment) :
    List SComment :=
  comments_df.map (fun c =>
    let clean := cleanHtml unescape (c.text.getD [])
    if clean = [] then
      { toPComment := c, sentiment_score := 0, sentiment_label := "neutral" }
    else
      let compound := analyzer clean
      { toPComment := c
        sentiment_score := round4 compound
        sentiment_label :=
          if compound ≥ SENTIMENT_POSITIVE_THRESHOLD then "positive"
          else if compound ≤ SENTIMENT_NEGATIVE_THRESHOLD then "negative"
          else "neutral" })

theorem round_mono_rat {x y : ℚ} (h : x ≤ y) : round x ≤ round y := by
  rw [round_eq, round_eq]
  exact Int.floor_le_floor (by linarith)

theorem round4_mem_Icc {x : ℚ} (h1 : -1 ≤ x) (h2 : x ≤ 1) :
    -1 ≤ round4 x ∧ round4 x ≤ 1 := by
  have hlo : (-10000 : ℤ) ≤ round (x * 10000) := by
    have h := round_mono_rat
      (show ((-10000 : ℤ) : ℚ) ≤ x * 10000 by push_cast; linarith)
    rwa [round_intCast] at h
  have hhi : round (x * 10000) ≤ (10000 : ℤ) := by
    have h := round_mono_rat
      (show x * 10000 ≤ ((10000 : ℤ) : ℚ) by push_cast; linarith)
    rwa [round_intCast] at h
  have hlo' : ((-10000 : ℤ) : ℚ) ≤ ((round (x * 10000) : ℤ) : ℚ) := by
    exact_mod_cast hlo
  have hhi' : ((round (x * 10000) : ℤ) : ℚ) ≤ ((10000 : ℤ) : ℚ) := by
    exact_mod_cast hhi
  constructor
  · rw [round4, le_div_iff₀ (by norm_num)]
    push_cast at hlo' ⊢
    linarith
  · rw [round4, div_le_one (by norm_num)]
    push_cast at hhi' ⊢
    linarith

/-- **C8.** Every sentiment-enriched comment carries a score in `[-1, 1]`
equal to the 4-decimal rounding of the analyzer's compound score, a label
determined by the ±0.05 thresholds on the compound score, and — whenever
the text is null or cleans to empty — score 0.0 and label `neutral`.
(The hypothesis `hrange` is VADER's documented guarantee that compound
scores lie in `[-1, 1]`.) -/
theorem sentiment_spec (analyzer : List Char → ℚ)
    (unescape : List Char → List Char) (comments_df : List PComment)
    (hrange : ∀ s, -1 ≤ analyzer s ∧ analyzer s ≤ 1)
    (r : SComment)
    (hr : r ∈ enrich_comments_sentiment analyzer unescape comments_df) :
    (-1 ≤ r.sentiment_score ∧ r.sentiment_score ≤ 1) ∧
    (cleanHtml unescape (r.text.getD []) = [] →
      r.sentiment_score = 0 ∧ r.sentiment_label = "neutral") ∧
    (cleanHtml unescape (r.text.getD []) ≠ [] →
      r.sentiment_score = round4 (analyzer (cleanHtml unescape (r.text.getD []))) ∧
      (r.sentiment_label = "positive" ↔
        analyzer (cleanHtml unescape (r.text.getD [])) ≥ 5 / 100) ∧
      (r.sentiment_label = "negative" ↔
        analyzer (cleanHtml unescape (r.text.getD [])) ≤ -(5 / 100)) ∧
      (r.sentiment_label = "neutral" ↔
        (¬ analyzer (cleanHtml unescape (r.text.getD [])) ≥ 5 / 100 ∧
          ¬ analyzer (cleanHtml unescape (r.text.getD [])) ≤ -(5 / 100)))) := by
  rcases List.mem_map.mp hr with ⟨c, -, rfl⟩
  dsimp only
  by_cases hclean : cleanHtml unescape (c.text.getD []) = []
  · rw [if_pos hclean]
    exact ⟨⟨by norm_num, by norm_num⟩, fun _ => ⟨rfl, rfl⟩,
      fun hne => absurd hclean hne⟩
  · rw [if_neg hclean]
    rcases hrange (cleanHtml unescape (c.text.getD [])) with ⟨h1, h2⟩
    refine ⟨round4_mem_Icc h1 h2, fun habs => absurd habs hclean,
      fun _ => ⟨rfl, ?_⟩⟩
    by_cases hpos : analyzer (cleanHtml unescape (c.text.getD [])) ≥
        SENTIMENT_POSITIVE_THRESHOLD
    · rw [if_pos hpos]
      dsimp only
      have hnneg : ¬ analyzer (cleanHtml unescape (c.text.getD [])) ≤
          -(5 / 100) := by
        rw [SENTIMENT_POSITIVE_THRESHOLD] at hpos
        intro hx
        linarith
      exact ⟨⟨fun _ => hpos, fun _ => rfl⟩,
        ⟨fun h => absurd h (by decide), fun h => absurd h hnneg⟩,
        ⟨fun h => absurd h (by decide), fun h => absurd hpos h.1⟩⟩
    · rw [if_neg hpos]
      by_cases hneg : analyzer (cleanHtml unescape (c.text.getD [])) ≤
          SENTIMENT_NEGATIVE_THRESHOLD
      · rw [if_pos hneg]
        dsimp only
        exact ⟨⟨fun h => absurd h (by decide), fun h => absurd h hpos⟩,
          ⟨fun _ => hneg, fun _ => rfl⟩,
          ⟨fun h => absurd h (by decide), fun h => absurd hneg h.2⟩⟩
      · rw [if_neg hneg]
        dsimp only
        exact ⟨⟨fun h => absurd h (by decide), fun h => absurd h hpos⟩,
          ⟨fun h => absurd h (by decide), fun h => absurd h hneg⟩,
          ⟨fun _ => ⟨hpos, hneg⟩, fun _ => rfl⟩⟩

/-- Concrete inputs for the C8 witness: the spec's own scenario text and a
constant analyzer inside VADER's range. -/
def c8Comment : PComment :=
  { id := 201, type := some "comment", time := some 1706749200,
    text := some ("<p>This is <b>absolutely wonderful</b>!</p>".data),
    parent := 100, ingestion_date := 0 }

def c8Analyzer : List Char → ℚ := fun _ => 6 / 10

/-- The enriched row the sentiment pass produces for `c8Comment`. -/
def c8Row : SComment :=
  { toPComment := c8Comment, sentiment_score := 6 / 10,
    sentiment_label := "positive" }

/-- Witness for C8 at the concrete scenario input. -/
theorem sentiment_spec_witness :
    (-1 ≤ c8Row.sentiment_score ∧ c8Row.sentiment_score ≤ 1) ∧
    (cleanHtml id (c8Row.text.getD []) = [] →
      c8Row.sentiment_score = 0 ∧ c8Row.sentiment_label = "neutral") ∧
    (cleanHtml id (c8Row.text.getD []) ≠ [] →
      c8Row.sentiment_score
          = round4 (c8Analyzer (cleanHtml id (c8Row.text.getD []))) ∧
      (c8Row.sentiment_label = "positive" ↔
        c8Analyzer (cleanHtml id (c8Row.text.getD [])) ≥ 5 / 100) ∧
      (c8Row.sentiment_label = "negative" ↔
        c8Analyzer (cleanHtml id (c8Row.text.getD [])) ≤ -(5 / 100)) ∧
      (c8Row.sentiment_label = "neutral" ↔
        (¬ c8Analyzer (cleanHtml id (c8Row.text.getD [])) ≥ 5 / 100 ∧
          ¬ c8Analyzer (cleanHtml id (c8Row.text.getD [])) ≤ -(5 / 100)))) :=
  sentiment_spec c8Analyzer id [c8Comment]
    (fun _ => by constructor <;> norm_num [c8Analyzer]) c8Row (by
      have hclean : cleanHtml id (c8Comment.text.getD [])
          = "This is absolutely wonderful !".data := by decide
      have hr4 : round4 (6 / 10 : ℚ) = 6 / 10 := by
        rw [round4, show (6 : ℚ) / 10 * 10000 = ((6000 : ℤ) : ℚ) by norm_num,
          round_intCast]
        norm_num
      simp only [enrich_comments_sentiment, List.map_cons, List.map_nil]
      rw [List.mem_singleton]
      dsimp only [c8Analyzer]
      rw [hclean, if_neg (by decide),
        if_pos (show (6 : ℚ) / 10 ≥ SENTIMENT_POSITIVE_THRESHOLD by
          rw [SENTIMENT_POSITIVE_THRESHOLD]; norm_num), hr4]
      rfl)

/-! ### Temporal enrichment (`HNTransformer._enrich_stories_temporal`) -/

/-- A temporally enriched story row: the processed row plus the five window
columns. -/
structure TStory extends PStory where
  score_velocity : Int
  comment_velocity : Int
  observations_in_window : Nat
  hours_to_peak : Option ℚ
  is_long_tail : Bool
deriving DecidableEq

/-- Python `round(x, 2)` (pandas `.round(2)`) on the model's rationals. -/
def round2 (x : ℚ) : ℚ := ((round (x * 100) : ℤ) : ℚ) / 100

/-- Insertion step of the per-id date sort. -/
def insertByDate (r : PStory) : List PStory → List PStory
  | [] => [r]
  | s :: t =>
    if r.ingestion_date ≤ s.ingestion_date then r :: s :: t
    else s :: insertByDate r t

/-- Sort story snapshots by ingestion date ascending (the
`sort_values(["id", "ingestion_date"])` order within one id's group; ties
cannot occur after the `(id, ingestion_date)` dedup). -/
def sortByDate (l : List PStory) : List PStory := l.foldr insertByDate []

/-- One id's snapshot group in window order: the rows of `all_obs` with
that id, sorted by ingestion date. -/
def groupObs (all_obs : List PStory) (i : Int) : List PStory :=
  sortByDate (all_obs.filter (fun s => decide (s.id = i)))

/-- The `groupby("id").shift(1)` predecessor of row `r`: the latest
earlier-dated snapshot of the same id, if any. -/
def prevObs (all_obs : List PStory) (r : PStory) : Option PStory :=
  ((groupObs all_obs r.id).filter
    (fun s => decide (s.ingestion_date < r.ingestion_date))).getLast?

/-- `idxmax` within a group: the first row (in group order) attaining the
maximal score. -/
def peakRow : List PStory → Option PStory
  | [] => none
  | s :: t =>
    match peakRow t with
    | some m => some (if m.score > s.score then m else s)
    | none => some s

/-- The per-row window computation of `_enrich_stories_temporal`:
velocities against the previous snapshot (0 without one), the group's
snapshot count, hours from creation to the peak-score snapshot date
(rounded to 2 decimals, clipped at 0, null when `time` is null — the NaN
propagated by pandas), and the long-tail flag (false when `time` is null,
since NaN comparisons are false). -/
def enrichObs (all_obs : List PStory) (r : PStory) : TStory :=
  let grp := groupObs all_obs r.id
  let prev := prevObs all_obs r
  let score_velocity :=
    match prev with | some p => r.score - p.score | none => 0
  let comment_velocity :=
    match prev with | some p => r.descendants - p.descendants | none => 0
  let peak_date :=
    match peakRow grp with
    | some m => m.ingestion_date
    | none => r.ingestion_date
  { toPStory := r
    score_velocity := score_velocity
    comment_velocity := comment_velocity
    observations_in_window := grp.length
    hours_to_peak := r.time.map (fun t =>
      max 0 (round2 (((peak_date * 86400 - t : Int) : ℚ) / 3600)))
    is_long_tail :=
      match r.time with
      | some t =>
        decide ((((r.ingestion_date * 86400 - t : Int) : ℚ) / 3600) > 48)
          && decide (comment_velocity > 0)
      | none => false }

/-- The combined window: historical snapshots then the target partition,
deduplicated by `(id, ingestion_date)` keeping the last (target overrides
historical on overlap). -/
def combinedObs (target_stories historical_stories : List PStory) :
    List PStory :=
  dedupKeepLast storyKey (historical_stories ++ target_stories)

/-- `_enrich_stories_temporal`: window metrics over the combined
observations, keeping only the rows of the target ingestion date.  (The
sorted row order of the output frame is not modelled; the claims are about
row values.) -/
def enrich_stories_temporal (target_stories historical_stories : List PStory)
    (ingestion_date : Int) : List TStory :=
  let all_obs := combinedObs target_stories historical_stories
  (all_obs.map (enrichObs all_obs)).filter
    (fun r => decide (r.ingestion_date = ingestion_date))

theorem filter_eq_singleton_of_length_one {α : Type} (p : α → Bool)
    (l : List α) (a : α) (ha : a ∈ l) (hpa : p a = true)
    (hlen : (l.filter p).length = 1) : l.filter p = [a] := by
  rcases List.length_eq_one.mp hlen with ⟨b, hb⟩
  have hab : a ∈ l.filter p := List.mem_filter.mpr ⟨ha, hpa⟩
  rw [hb] at hab ⊢
  rw [List.mem_singleton.mp hab]

/-- **C7.** A story with exactly one snapshot in the combined
historical-plus-target window gets `score_velocity = 0`,
`comment_velocity = 0` and `observations_in_window = 1` on its output
row. -/
theorem single_observation_enrichment
    (target_stories historical_stories : List PStory) (ingestion_date : Int)
    (i : Int)
    (hsingle : ((combinedObs target_stories historical_stories).filter
        (fun s => decide (s.id = i))).length = 1)
    (r : TStory)
    (hr : r ∈ enrich_stories_temporal target_stories historical_stories
        ingestion_date)
    (hid : r.id = i) :
    r.score_velocity = 0 ∧ r.comment_velocity = 0 ∧
      r.observations_in_window = 1 := by
  rcases List.mem_map.mp (List.mem_of_mem_filter hr) with ⟨u, hu, rfl⟩
  have huid : u.id = i := hid
  have hgrp : (combinedObs target_stories historical_stories).filter
      (fun s => decide (s.id = u.id)) = [u] := by
    rw [huid]
    exact filter_eq_singleton_of_length_one _ _ u hu (by simp [huid]) hsingle
  have hsort : groupObs (combinedObs target_stories historical_stories) u.id
      = [u] := by
    rw [groupObs, hgrp]
    rfl
  have hprev : prevObs (combinedObs target_stories historical_stories) u
      = none := by
    rw [prevObs, hsort]
    simp
  refine ⟨?_, ?_, ?_⟩ <;>
    simp only [enrichObs, hprev, hsort, List.length_cons, List.length_nil]

/-- Concrete input for the C7 witness: one story, no history. -/
def c7Story : PStory :=
  { id := 100, type := some "story", time := some 0, title := some "T",
    score := 50, descendants := 7, ingestion_date := 0 }

/-- The enriched row produced for `c7Story`. -/
def c7Row : TStory := enrichObs (combinedObs [c7Story] []) c7Story

/-- Witness for C7 at a concrete single-snapshot window. -/
theorem single_observation_enrichment_witness :
    c7Row.score_velocity = 0 ∧ c7Row.comment_velocity = 0 ∧
      c7Row.observations_in_window = 1 :=
  single_observation_enrichment [c7Story] [] 0 100 (by decide) c7Row
    (by exact List.Mem.head _) rfl

/-! ### Topic enrichment and the transformation run (`HNTransformer`) -/

/-- A fully enriched story row: temporal columns plus `dominant_topics`. -/
structure EStory extends TStory where
  dominant_topics : Option String
deriving DecidableEq

/-- `_enrich_stories_topics`: the TF-IDF vectorizer is an external sklearn
collaborator, abstracted as `assignTopics`, which maps the partition's
title list to the per-row `dominant_topics` values (one per row); the story
rows themselves are preserved and the topics column is zipped on. -/
def enrich_stories_topics
    (assignTopics : List (Option String) → List (Option String))
    (stories_df : List TStory) : List EStory :=
  List.zipWith (fun r t => { toTStory := r, dominant_topics := t })
    stories_df (assignTopics (stories_df.map (fun r => r.title)))

/-- Null mask of the post-enrichment story `check_not_null` over
`score_velocity, comment_velocity, hours_to_peak, is_long_tail,
observations_in_window`: only `hours_to_peak` is nullable in the enriched
schema (null iff the row's creation `time` was null), the other four are
total. -/
def enrichedStoryNullMask (r : EStory) : Bool := r.hours_to_peak.isNone

/-- Null mask of the post-enrichment comment `check_not_null` over
`sentiment_score, sentiment_label`: both columns are total in the enriched
schema, so no row is null. -/
def enrichedCommentNullMask (_ : SComment) : Bool := false

/-- `QualityRunner.run_transformation_story_checks`. -/
def run_transformation_story_checks (stories_df : List EStory) :
    QualityReport :=
  build_report
    [ check_not_null enrichedStoryNullMask "critical" stories_df,
      check_range (fun r => r.hours_to_peak) (some 0) none "warning"
        stories_df,
      check_range (fun r => some ((r.observations_in_window : ℚ))) (some 1)
        none "warning" stories_df,
      check_volume stories_df "stories_enriched" 1 "warning" ]

/-- `QualityRunner.run_transformation_comment_checks`. -/
def run_transformation_comment_checks (comments_df : List SComment) :
    QualityReport :=
  build_report
    [ check_not_null enrichedCommentNullMask "critical" comments_df,
      check_range (fun r => some r.sentiment_score) (some (-1)) (some 1)
        "warning" comments_df,
      check_volume comments_df "comments_enriched" 1 "warning" ]

/-- One write performed by `HNTransformer.transform`: enriched output to
the output layer, or a quality report to `output/quality_reports/`. -/
inductive TransWrite
  | output_stories (rows : List EStory)
  | output_comments (rows : List SComment)
  | quality_report (entity : String) (report : QualityReport)
deriving DecidableEq

/-- The statistics dict returned by a completed `transform` run. -/
structure TransformStats where
  stories_input : Nat
  stories_enriched : Nat
  comments_input : Nat
  comments_enriched : Nat
  historical_observations_loaded : Nat
  quality_stories : Option QualityReport
  quality_comments : Option QualityReport
deriving DecidableEq

/-- `transform` either returns its stats or raises `QualityCheckError`
(carrying which entity's critical checks failed). -/
inductive TransformOutcome
  | ok (stats : TransformStats)
  | quality_error (entity : String)
deriving DecidableEq

/-- Observable outcome of one `transform` run: the writes that happened
before it finished or raised, and how it ended. -/
structure TransformRun where
  writes : List TransWrite
  outcome : TransformOutcome
deriving DecidableEq

/-- Whether the run ended in the blocking `QualityCheckError`. -/
def TransformRun.raised (r : TransformRun) : Bool :=
  match r.outcome with
  | .ok _ => false
  | .quality_error _ => true

/-- The enriched story frame of a run (empty when the target partition is
empty, mirroring the `target_stories.empty` guard). -/
def enrichedStoriesOf
    (assignTopics : List (Option String) → List (Option String))
    (target_stories historical_stories : List PStory)
    (ingestion_date : Int) : List EStory :=
  if target_stories.isEmpty then []
  else
    enrich_stories_topics assignTopics
      (enrich_stories_temporal target_stories historical_stories
        ingestion_date)

/-- The enriched comment frame of a run. -/
def enrichedCommentsOf (analyzer : List Char → ℚ)
    (unescape : List Char → List Char) (target_comments : List PComment) :
    List SComment :=
  if target_comments.isEmpty then []
  else enrich_comments_sentiment analyzer unescape target_comments

/-- `HNTransformer.transform`: enrich stories (temporal + topics) and
comments (sentiment); for each non-empty enriched frame run its
post-enrichment battery and persist the report, raising the blocking
`QualityCheckError` on a critical failure (stories gate first); only after
both gates pass persist the enriched frames to the output layer. -/
def transform (assignTopics : List (Option String) → List (Option String))
    (analyzer : List Char → ℚ) (unescape : List Char → List Char)
    (target_stories : List PStory) (target_comments : List PComment)
    (historical_stories : List PStory) (ingestion_date : Int) :
    TransformRun :=
  let enriched_stories :=
    enrichedStoriesOf assignTopics target_stories historical_stories
      ingestion_date
  let enriched_comments :=
    enrichedCommentsOf analyzer unescape target_comments
  let story_report := run_transformation_story_checks enriched_stories
  let comment_report := run_transformation_comment_checks enriched_comments
  let w1 : List TransWrite :=
    if enriched_stories.isEmpty then []
    else [TransWrite.quality_report "stories" story_report]
  if !enriched_stories.isEmpty && story_report.has_critical_failures then
    { writes := w1, outcome := .quality_error "stories" }
  else
    let w2 := w1 ++
      (if enriched_comments.isEmpty then []
       else [TransWrite.quality_report "comments" comment_report])
    if !enriched_comments.isEmpty && comment_report.has_critical_failures then
      { writes := w2, outcome := .quality_error "comments" }
    else
      { writes := w2
          ++ (if enriched_stories.isEmpty then []
              else [TransWrite.output_stories enriched_stories])
          ++ (if enriched_comments.isEmpty then []
              else [TransWrite.output_comments enriched_comments])
        outcome := .ok
          { stories_input := target_stories.length
            stories_enriched := enriched_stories.length
            comments_input := target_comments.length
            comments_enriched := enriched_comments.length
            historical_observations_loaded := historical_stories.length
            quality_stories :=
              if enriched_stories.isEmpty then none else some story_report
            quality_comments :=
              if enriched_comments.isEmpty then none
              else some comment_report } }

/-- **C4.** `transform` raises the blocking quality error iff the
post-enrichment report of the non-empty enriched stories or comments has a
critical-severity failure (`has_critical_failures`, the OR over failed
critical checks, per `build_report`); when it raises, no enriched output is
persisted for the run (reports are persisted regardless); and when no
critical check fails on either side — warning failures included — each
non-empty enriched frame is persisted to the output layer. -/
theorem transform_gating
    (assignTopics : List (Option String) → List (Option String))
    (analyzer : List Char → ℚ) (unescape : List Char → List Char)
    (ts : List PStory) (tc : List PComment) (hist : List PStory) (d : Int) :
    ((transform assignTopics analyzer unescape ts tc hist d).raised = true ↔
      ((enrichedStoriesOf assignTopics ts hist d ≠ [] ∧
        (run_transformation_story_checks
          (enrichedStoriesOf assignTopics ts hist d)).has_critical_failures
            = true) ∨
       (enrichedCommentsOf analyzer unescape tc ≠ [] ∧
        (run_transformation_comment_checks
          (enrichedCommentsOf analyzer unescape tc)).has_critical_failures
            = true))) ∧
    ((transform assignTopics analyzer unescape ts tc hist d).raised = true →
      (∀ rows, TransWrite.output_stories rows ∉
        (transform assignTopics analyzer unescape ts tc hist d).writes) ∧
      (∀ rows, TransWrite.output_comments rows ∉
        (transform assignTopics analyzer unescape ts tc hist d).writes)) ∧
    ((run_transformation_story_checks
        (enrichedStoriesOf assignTopics ts hist d)).has_critical_failures
          = false →
     (run_transformation_comment_checks
        (enrichedCommentsOf analyzer unescape tc)).has_critical_failures
          = false →
      (enrichedStoriesOf assignTopics ts hist d ≠ [] →
        TransWrite.output_stories (enrichedStoriesOf assignTopics ts hist d)
          ∈ (transform assignTopics analyzer unescape ts tc hist d).writes) ∧
      (enrichedCommentsOf analyzer unescape tc ≠ [] →
        TransWrite.output_comments (enrichedCommentsOf analyzer unescape tc)
          ∈ (transform assignTopics analyzer unescape ts tc hist d).writes)) := by
  by_cases hes : enrichedStoriesOf assignTopics ts hist d = [] <;>
    by_cases hec : enrichedCommentsOf analyzer unescape tc = [] <;>
    by_cases hsc : (run_transformation_story_checks
      (enrichedStoriesOf assignTopics ts hist d)).has_critical_failures
        = true <;>
    by_cases hcc : (run_transformation_comment_checks
      (enrichedCommentsOf analyzer unescape tc)).has_critical_failures
        = true <;>
    simp_all [transform, TransformRun.raised, List.isEmpty_iff]

/-- A concrete topics assignment for the C4 witness (no usable vocabulary:
every row gets a null `dominant_topics`). -/
def c4Topics : List (Option String) → List (Option String) :=
  fun titles => titles.map (fun _ => none)

/-- A concrete analyzer for the C4 witness. -/
def c4Analyzer : List Char → ℚ := fun _ => 0

/-- Witness for C4 at a concrete (empty-partition) input. -/
theorem transform_gating_witness :
    ((transform c4Topics c4Analyzer id [] [] [] 0).raised = true ↔
      ((enrichedStoriesOf c4Topics [] [] 0 ≠ [] ∧
        (run_transformation_story_checks
          (enrichedStoriesOf c4Topics [] [] 0)).has_critical_failures
            = true) ∨
       (enrichedCommentsOf c4Analyzer id [] ≠ [] ∧
        (run_transformation_comment_checks
          (enrichedCommentsOf c4Analyzer id [])).has_critical_failures
            = true))) ∧
    ((transform c4Topics c4Analyzer id [] [] [] 0).raised = true →
      (∀ rows, TransWrite.output_stories rows ∉
        (transform c4Topics c4Analyzer id [] [] [] 0).writes) ∧
      (∀ rows, TransWrite.output_comments rows ∉
        (transform c4Topics c4Analyzer id [] [] [] 0).writes)) ∧
    ((run_transformation_story_checks
        (enrichedStoriesOf c4Topics [] [] 0)).has_critical_failures
          = false →
     (run_transformation_comment_checks
        (enrichedCommentsOf c4Analyzer id [])).has_critical_failures
          = false →
      (enrichedStoriesOf c4Topics [] [] 0 ≠ [] →
        TransWrite.output_stories (enrichedStoriesOf c4Topics [] [] 0)
          ∈ (transform c4Topics c4Analyzer id [] [] [] 0).writes) ∧
      (enrichedCommentsOf c4Analyzer id [] ≠ [] →
        TransWrite.output_comments (enrichedCommentsOf c4Analyzer id [])
          ∈ (transform c4Topics c4Analyzer id [] [] [] 0).writes)) :=
  transform_gating c4Topics c4Analyzer id [] [] [] 0

end HN
